import Mathlib

/-!
Verification development for the `mythix-orm-solr` driver
(`src/lib/solr-connection.js`, `src/lib/index.js`, and the embedded
`solr-query-generator.js`).

The JavaScript source is shallowly embedded: each method of `SOLRConnection`
becomes a Lean function over an explicit connection state, returning an
`Except JsError` result paired with the list of transport requests the call
issued.  Every data/DDL method body in the source is a single
`throw new Error(...)` statement, so its denotation is the corresponding
error value together with an empty transport transcript.
-/

namespace MythixSolr

/-- JavaScript error values raised by the module: `new Error(message)` from an
explicit `throw`, or an engine-level `ReferenceError` for an unbound
identifier. -/
inductive JsError where
  | error (message : String)
  | referenceError (message : String)
deriving DecidableEq

/-- A transport request issued through the HTTP client.  The stubbed methods of
`solr-connection.js` never reach the transport, so every transcript in this
development is empty; the type records that fact observably. -/
structure TransportCall where
  httpMethod : String
  path : String
  body : String
deriving DecidableEq

/-- Substring test on strings (used to state what an error message "names"). -/
def strContains (s pat : String) : Bool :=
  (List.range (s.data.length + 1)).any fun i => pat.data.isPrefixOf (s.data.drop i)

/-- Connection state of `SOLRConnection`.  `httpClient` holds the transport
handle (`null` when absent); handles are identified by allocation order via the
ghost counter `nextHandleId` (each JS `new HTTPClient()` yields a fresh
object), and `abandonedHandles` is ghost instrumentation recording handles that
were overwritten by `start()` while still held (dropped without `stop()`). -/
structure SOLRConnection where
  httpClient : Option Nat
  nextHandleId : Nat
  abandonedHandles : List Nat
deriving DecidableEq

/-- Source `constructor(_options)`: defines `httpClient` with value `null`. -/
def SOLRConnection.new : SOLRConnection :=
  { httpClient := none, nextHandleId := 0, abandonedHandles := [] }

/-- Source `isStarted() { return !!this.httpClient; }` -/
def SOLRConnection.isStarted (c : SOLRConnection) : Bool :=
  c.httpClient.isSome

/-- Source `async start() { this.httpClient = new HTTPClient(); }` — allocates a fresh
handle and overwrites the field; a previously held handle is abandoned. -/
def SOLRConnection.start (c : SOLRConnection) : SOLRConnection :=
  { httpClient := some c.nextHandleId,
    nextHandleId := c.nextHandleId + 1,
    abandonedHandles :=
      match c.httpClient with
      | some h => h :: c.abandonedHandles
      | none => c.abandonedHandles }

/-- Source `async stop() { this.httpClient = null; }` -/
def SOLRConnection.stop (c : SOLRConnection) : SOLRConnection :=
  { c with httpClient := none }

/-- Source `this.constructor.name` for a plain `SOLRConnection` instance. -/
def connectionTypeName : String := "SOLRConnection"

/-- The template string used by every stub method:
`${this.constructor.name}::<op>: This operation is not supported for this connection type.` -/
def unsupportedMessage (op : String) : String :=
  connectionTypeName ++ "::" ++ op ++
    ": This operation is not supported for this connection type."

end MythixSolr

namespace MythixSolr

/-- A model class, as far as this module inspects one (`getModelName`). -/
structure ModelClass where
  modelName : String
deriving DecidableEq

/-- A field, as far as this module inspects one. -/
structure Field where
  ownerModel : ModelClass
  fieldName : String
deriving DecidableEq

/-- A record / model instance: attribute name-value pairs. -/
structure Record where
  attrs : List (String × String)
deriving DecidableEq

/-- A `QueryEngine` instance, as far as this module inspects one. -/
structure QueryEngine where
  rootModel : ModelClass
deriving DecidableEq

end MythixSolr

namespace MythixSolr.SOLRConnection

open MythixSolr

/-- Source `async dropTable(Model, options)` — throws unconditionally. -/
def dropTable (_c : SOLRConnection) (_M : ModelClass) :
    Except JsError Unit × List TransportCall :=
  (Except.error (JsError.error (unsupportedMessage "dropTable")), [])

/-- Source `async createTable(Model, options)` — throws unconditionally. -/
def createTable (_c : SOLRConnection) (_M : ModelClass) :
    Except JsError Unit × List TransportCall :=
  (Except.error (JsError.error (unsupportedMessage "createTable")), [])

/-- Source `async defineTable()` — throws unconditionally. -/
def defineTable (_c : SOLRConnection) :
    Except JsError Unit × List TransportCall :=
  (Except.error (JsError.error (unsupportedMessage "defineTable")), [])

/-- Source `async defineConstraints()` — throws unconditionally. -/
def defineConstraints (_c : SOLRConnection) :
    Except JsError Unit × List TransportCall :=
  (Except.error (JsError.error (unsupportedMessage "defineConstraints")), [])

/-- Source `async defineIndexes()` — throws unconditionally. -/
def defineIndexes (_c : SOLRConnection) :
    Except JsError Unit × List TransportCall :=
  (Except.error (JsError.error (unsupportedMessage "defineIndexes")), [])

/-- Source `async alterTable(Model, newModelAttributes, options)` — throws
unconditionally; note the source's message literal says `renameTable`. -/
def alterTable (_c : SOLRConnection) (_M : ModelClass)
    (_newModelAttributes : List (String × String)) :
    Except JsError Unit × List TransportCall :=
  (Except.error (JsError.error (unsupportedMessage "renameTable")), [])

/-- Source `async dropColumn(Field, options)` — throws unconditionally. -/
def dropColumn (_c : SOLRConnection) (_F : Field) :
    Except JsError Unit × List TransportCall :=
  (Except.error (JsError.error (unsupportedMessage "dropColumn")), [])

/-- Source `async alterColumn(Field, newFieldAttributes, options)` — throws
unconditionally. -/
def alterColumn (_c : SOLRConnection) (_F : Field)
    (_newFieldAttributes : List (String × String)) :
    Except JsError Unit × List TransportCall :=
  (Except.error (JsError.error (unsupportedMessage "alterColumn")), [])

/-- Source `async addColumn(Field, options)` — throws unconditionally. -/
def addColumn (_c : SOLRConnection) (_F : Field) :
    Except JsError Unit × List TransportCall :=
  (Except.error (JsError.error (unsupportedMessage "addColumn")), [])

/-- Source `async addIndex(Model, indexFields, options)` — throws unconditionally. -/
def addIndex (_c : SOLRConnection) (_M : ModelClass) (_indexFields : List String) :
    Except JsError Unit × List TransportCall :=
  (Except.error (JsError.error (unsupportedMessage "addIndex")), [])

/-- Source `async dropIndex(Model, indexFields, options)` — throws unconditionally;
note the source's message literal says `addIndex`. -/
def dropIndex (_c : SOLRConnection) (_M : ModelClass) (_indexFields : List String) :
    Except JsError Unit × List TransportCall :=
  (Except.error (JsError.error (unsupportedMessage "addIndex")), [])

end MythixSolr.SOLRConnection

namespace MythixSolr

/-- Options bag for the bulk operations (`batchSize` documented default 500). -/
structure BulkOptions where
  batchSize : Nat := 500
deriving DecidableEq

/-- Options bag for `destroyModels` (`truncate` documented default absent/false). -/
structure DestroyOptions where
  truncate : Bool := false
deriving DecidableEq

/-- The polymorphic first argument of `destroy`. -/
inductive QueryOrModel where
  | byQuery (q : QueryEngine)
  | byModel (M : ModelClass)
deriving DecidableEq

/-- An aggregate literal (count/sum/average/min/max bound to a field), as far
as this module inspects one. -/
structure AggregateLiteral where
  kind : String
  fieldName : String
deriving DecidableEq

/-- A suspended async generator: the denotation of a JS `async *` function
value.  Pulling it (calling `.next()`) runs the body to the next suspension
point, yielding a value and a continuation, finishing, or raising an error. -/
inductive AsyncGen (α : Type) where
  | mk (step : Except JsError (Option (α × AsyncGen α)))

/-- The first `.next()` call on an async generator. -/
def AsyncGen.pull {α : Type} : AsyncGen α → Except JsError (Option (α × AsyncGen α))
  | .mk s => s

end MythixSolr

namespace MythixSolr.SOLRConnection

open MythixSolr

/-- Source `async insert(Model, models, _options)` — throws unconditionally. -/
def insert (_c : SOLRConnection) (_M : ModelClass) (_models : List Record)
    (_options : BulkOptions) :
    Except JsError (List Record) × List TransportCall :=
  (Except.error (JsError.error (unsupportedMessage "insert")), [])

/-- Source `async upsert(Model, models, _options)` — throws unconditionally. -/
def upsert (_c : SOLRConnection) (_M : ModelClass) (_models : List Record)
    (_options : BulkOptions) :
    Except JsError (List Record) × List TransportCall :=
  (Except.error (JsError.error (unsupportedMessage "upsert")), [])

/-- Source `async update(Model, models, _options)` — throws unconditionally. -/
def update (_c : SOLRConnection) (_M : ModelClass) (_models : List Record)
    (_options : BulkOptions) :
    Except JsError (List Record) × List TransportCall :=
  (Except.error (JsError.error (unsupportedMessage "update")), [])

/-- Source `async updateAll(_queryEngine, model, _options)` — throws unconditionally. -/
def updateAll (_c : SOLRConnection) (_q : QueryEngine) (_attributes : Record) :
    Except JsError Unit × List TransportCall :=
  (Except.error (JsError.error (unsupportedMessage "updateAll")), [])

/-- Source `async destroyModels(Model, _models, _options)` — throws unconditionally.
`_models = none` embeds a JS `null`/`undefined` argument. -/
def destroyModels (_c : SOLRConnection) (_M : ModelClass)
    (_models : Option (List Record)) (_options : DestroyOptions) :
    Except JsError (List Record) × List TransportCall :=
  (Except.error (JsError.error (unsupportedMessage "destroyModels")), [])

/-- Source `async destroy(_queryEngineOrModel, modelsOrOptions, _options)` — throws
unconditionally. -/
def destroy (_c : SOLRConnection) (_target : QueryOrModel) :
    Except JsError (List Record) × List TransportCall :=
  (Except.error (JsError.error (unsupportedMessage "destroy")), [])

/-- Source `async *select(_queryEngine, _options)` — an async generator function whose
body is a single `throw`.  Per JS semantics, *calling* an async generator
function runs none of its body: it immediately returns a suspended generator
and performs no I/O; the `throw` happens on the first `.next()` pull.  The
outer `Except` is the result of the invocation itself (always `ok`). -/
def select (_c : SOLRConnection) (_q : QueryEngine) :
    Except JsError (AsyncGen Record) × List TransportCall :=
  (Except.ok (AsyncGen.mk
      (Except.error (JsError.error (unsupportedMessage "select")))), [])

/-- Source `async aggregate(_queryEngine, _literal, options)` — throws unconditionally. -/
def aggregate (_c : SOLRConnection) (_q : QueryEngine) (_literal : AggregateLiteral) :
    Except JsError Int × List TransportCall :=
  (Except.error (JsError.error (unsupportedMessage "aggregate")), [])

/-- Source `async pluck(_queryEngine, _fields, _options)` — throws unconditionally. -/
def pluck (_c : SOLRConnection) (_q : QueryEngine) (_fields : List String) :
    Except JsError (List (List String)) × List TransportCall :=
  (Except.error (JsError.error (unsupportedMessage "pluck")), [])

/-- Source `async exists(queryEngine, options)` — throws unconditionally (named
`existsQ` here because `exists` is reserved in Lean). -/
def existsQ (_c : SOLRConnection) (_q : QueryEngine) :
    Except JsError Bool × List TransportCall :=
  (Except.error (JsError.error (unsupportedMessage "exists")), [])

/-- Source `async truncate(Model, options)` — throws unconditionally. -/
def truncate (_c : SOLRConnection) (_M : ModelClass) :
    Except JsError Unit × List TransportCall :=
  (Except.error (JsError.error (unsupportedMessage "truncate")), [])

/-- Source `async query(lucene, options)` — throws unconditionally. -/
def query (_c : SOLRConnection) (_lucene : String) :
    Except JsError (List Record) × List TransportCall :=
  (Except.error (JsError.error (unsupportedMessage "query")), [])

/-- Source `async transaction(callback, options)` — throws unconditionally; the
callback is never invoked. -/
def transaction {α : Type} (_c : SOLRConnection)
    (_callback : SOLRConnection → Except JsError α) :
    Except JsError α × List TransportCall :=
  (Except.error (JsError.error (unsupportedMessage "transaction")), [])

/-- The `Models` argument accepted by `createTables`/`dropTables`: `null`/
`undefined`, or a collection of model classes. -/
inductive ModelsArg where
  | nullArg
  | models (Models : List ModelClass)
deriving DecidableEq

/-- Source `async createTables(_Models, options)`.  `if (!_Models) return;` — a
null/undefined argument returns `undefined` (embedded as `ok none`) at once.
Otherwise the model map is built, and then the expression
`Utils.sortModelNamesByCreationOrder(this, modelNames)` is evaluated: `Utils`
is a free identifier in this module (never imported or declared), so the
evaluation raises `ReferenceError: Utils is not defined` before any
`createTable` call.  The second component lists the model names for which a
per-model `createTable` call was made. -/
def createTables (_c : SOLRConnection) (Models : ModelsArg) :
    Except JsError (Option (List Unit)) × List String :=
  match Models with
  | .nullArg => (Except.ok none, [])
  | .models ms =>
      let _modelNames := ms.map ModelClass.modelName
      (Except.error (JsError.referenceError "Utils is not defined"), [])

/-- Source `async dropTables(_Models, options)` — same structure as `createTables`
(the drop loop would run in reverse creation order, but the `Utils` reference
on the way there is unbound). -/
def dropTables (_c : SOLRConnection) (Models : ModelsArg) :
    Except JsError (Option (List Unit)) × List String :=
  match Models with
  | .nullArg => (Except.ok none, [])
  | .models ms =>
      let _modelNames := ms.map ModelClass.modelName
      (Except.error (JsError.referenceError "Utils is not defined"), [])

end MythixSolr.SOLRConnection

namespace MythixSolr

/-- The public data operations of the connection. -/
inductive DataOp where
  | insert | upsert | update | updateAll | destroyModels | destroy
  | select | aggregate | pluck | existsOp | truncate | query
deriving DecidableEq

/-- The name of each data operation as it appears in the source. -/
def DataOp.opName : DataOp → String
  | .insert => "insert"
  | .upsert => "upsert"
  | .update => "update"
  | .updateAll => "updateAll"
  | .destroyModels => "destroyModels"
  | .destroy => "destroy"
  | .select => "select"
  | .aggregate => "aggregate"
  | .pluck => "pluck"
  | .existsOp => "exists"
  | .truncate => "truncate"
  | .query => "query"

/-- Forget the value type of an operation result, keeping the error (if any)
and the transport transcript. -/
def discardOk {α : Type} (r : Except JsError α × List TransportCall) :
    Except JsError Unit × List TransportCall :=
  (r.1.map fun _ => (), r.2)

/-- Observable outcome of invoking one data operation on the connection.  For
`select` — an async generator function — the observable outcome is obtaining
the generator and pulling it once (the only point at which its body runs). -/
def SOLRConnection.dataOpResult (c : SOLRConnection) (M : ModelClass)
    (q : QueryEngine) (models : List Record) (attributes : Record)
    (literal : AggregateLiteral) (fields : List String) (lucene : String) :
    DataOp → Except JsError Unit × List TransportCall
  | .insert => discardOk (c.insert M models {})
  | .upsert => discardOk (c.upsert M models {})
  | .update => discardOk (c.update M models {})
  | .updateAll => discardOk (c.updateAll q attributes)
  | .destroyModels => discardOk (c.destroyModels M (some models) {})
  | .destroy => discardOk (c.destroy (QueryOrModel.byQuery q))
  | .select =>
      match c.select q with
      | (Except.ok g, calls) =>
          match g.pull with
          | Except.error e => (Except.error e, calls)
          | Except.ok _ => (Except.ok (), calls)
      | (Except.error e, calls) => (Except.error e, calls)
  | .aggregate => discardOk (c.aggregate q literal)
  | .pluck => discardOk (c.pluck q fields)
  | .existsOp => discardOk (c.existsQ q)
  | .truncate => discardOk (c.truncate M)
  | .query => discardOk (c.query lucene)

end MythixSolr

namespace MythixSolr

/-!
Query generator.  In the source, `solr-query-generator.js` declares
`class SOLRQueryGenerator extends QueryGeneratorBase {}` with an empty body:
the SOLR-specific translation logic is absent from the repository (only the
external `mythix-orm` base class stands behind it).  The definitions below are
therefore modelled from the spec (§4.1 and §3), not translated from source.
-/

/-- Modelled from the spec: the condition operators §4.1 lists as supported by
`translateCondition` (EQ, NE, GT, GTE, LT, LTE, IN, LIKE, range, NULL-check). -/
inductive CondOp where
  | EQ | NE | GT | GTE | LT | LTE | IN | LIKE | RANGE | NULLCHECK
deriving DecidableEq

/-- Render an operator as a token of the filter syntax (the exact grammar is
left open by the spec; any fixed rendering witnesses the stated properties). -/
def CondOp.token : CondOp → String
  | .EQ => "EQ"
  | .NE => "NE"
  | .GT => "GT"
  | .GTE => "GTE"
  | .LT => "LT"
  | .LTE => "LTE"
  | .IN => "IN"
  | .LIKE => "LIKE"
  | .RANGE => "RANGE"
  | .NULLCHECK => "NULLCHECK"

/-- Modelled from the spec: an immutable tree of condition nodes (field,
operator, values), combined with AND/OR groups; a node carrying an operator
outside the supported set is kept explicit so that translation can reject it. -/
inductive CondNode where
  | leaf (fieldName : String) (op : CondOp) (values : List String)
  | andGroup (l r : CondNode)
  | orGroup (l r : CondNode)
  | unsupportedOp (fieldName : String) (opName : String)
deriving DecidableEq

/-- True when the tree is built only from supported operators. -/
def CondNode.supportedOnly : CondNode → Bool
  | .leaf _ _ _ => true
  | .andGroup l r => l.supportedOnly && r.supportedOnly
  | .orGroup l r => l.supportedOnly && r.supportedOnly
  | .unsupportedOp _ _ => false

/-- Modelled from the spec: `translateCondition(node) → filter-fragment`.
Nested AND/OR groups translate to explicitly parenthesized boolean
sub-expressions; unsupported operators fail with an `UnsupportedOperator`
error naming the operator and the target store. -/
def translateCondition : CondNode → Except JsError String
  | .leaf f op vs =>
      Except.ok (f ++ " " ++ op.token ++ " " ++ String.intercalate "," vs)
  | .andGroup l r =>
      match translateCondition l, translateCondition r with
      | Except.ok ls, Except.ok rs => Except.ok ("(" ++ ls ++ " AND " ++ rs ++ ")")
      | Except.error e, _ => Except.error e
      | _, Except.error e => Except.error e
  | .orGroup l r =>
      match translateCondition l, translateCondition r with
      | Except.ok ls, Except.ok rs => Except.ok ("(" ++ ls ++ " OR " ++ rs ++ ")")
      | Except.error e, _ => Except.error e
      | _, Except.error e => Except.error e
  | .unsupportedOp _ opName =>
      Except.error (JsError.error ("UnsupportedOperator: " ++ opName ++ " is not supported for solr"))

/-- Modelled from the spec: a projected field with its storage kind (concrete
vs virtual/relational). -/
structure ProjectedField where
  entity : String
  fieldName : String
  concrete : Bool
deriving DecidableEq

/-- Modelled from the spec: `translateProjection(fields)` — concrete fields map
to their fully qualified `Entity:field` name; virtual/relational fields are
silently dropped. -/
def translateProjection (fields : List ProjectedField) : List String :=
  (fields.filter fun f => f.concrete).map fun f => f.entity ++ ":" ++ f.fieldName

/-- Modelled from the spec: `translatePagination(limit, offset)` clamps
negative values to zero. -/
def translatePagination (limit offset : Int) : Nat × Nat :=
  (limit.toNat, offset.toNat)

/-- Modelled from the spec (§3): an AbstractQuery — condition tree, projection,
ordering (field, descending flag), limit/offset, root entity type. -/
structure AbstractQuery where
  rootEntity : String
  condition : CondNode
  projection : List ProjectedField
  order : List (String × Bool)
  limit : Int
  offset : Int
deriving DecidableEq

/-- Modelled from the spec (§3): the SearchQueryDocument — a filter expression,
a field-selection list, a sort spec, and pagination bounds. -/
structure SearchQueryDocument where
  filter : String
  fieldList : List String
  sortSpec : List (String × Bool)
  rowBound : Nat
  startBound : Nat
deriving DecidableEq

/-- The generator object's fields: per the spec it holds no state beyond the
owning connection's dialect settings. -/
structure SOLRQueryGenerator where
  dialect : String
deriving DecidableEq

/-- Modelled from the spec: full translation AbstractQuery → SearchQueryDocument.
The generator is threaded in state-passing style — the JS method could mutate
its receiver, so the returned generator state makes "no hidden mutable state"
an actual proof obligation rather than a typing artifact. -/
def SOLRQueryGenerator.generate (g : SOLRQueryGenerator) (q : AbstractQuery) :
    Except JsError (SearchQueryDocument × SOLRQueryGenerator) :=
  match translateCondition q.condition with
  | Except.error e => Except.error e
  | Except.ok filter =>
      let bounds := translatePagination q.limit q.offset
      Except.ok
        ({ filter := filter,
           fieldList := translateProjection q.projection,
           sortSpec := q.order,
           rowBound := bounds.1,
           startBound := bounds.2 }, g)

end MythixSolr

namespace MythixSolr

/-- A concrete model class used for concrete evaluations. -/
def userModel : ModelClass := ⟨"User"⟩

/-- A concrete query used for concrete evaluations. -/
def sampleQuery : QueryEngine := ⟨userModel⟩

/-- A concrete record with no attributes. -/
def emptyRecord : Record := ⟨[]⟩

/-- A concrete aggregate literal. -/
def countLiteral : AggregateLiteral := ⟨"count", "*"⟩

/-- A concrete generator instance. -/
def sampleGenerator : SOLRQueryGenerator := ⟨"solr"⟩

/-- A concrete AbstractQuery built only from supported operators, with nested
AND/OR groups, a virtual projected field, and a negative offset. -/
def sampleAbstractQuery : AbstractQuery :=
  { rootEntity := "User",
    condition := CondNode.andGroup
      (CondNode.leaf "User:age" CondOp.GT ["21"])
      (CondNode.orGroup
        (CondNode.leaf "User:firstName" CondOp.EQ ["Bob"])
        (CondNode.leaf "User:lastName" CondOp.LIKE ["Smi%"])),
    projection := [⟨"User", "id", true⟩, ⟨"User", "primaryRole", false⟩],
    order := [("User:id", false)],
    limit := 10,
    offset := -3 }

/-- Claim C1 (code bug evaluation): every DDL operation fails immediately with
the unsupported-operation error, whose message names the connection type — but
the message thrown by `alterTable` names `renameTable` and the one thrown by
`dropIndex` names `addIndex`, not the operation that was called. -/
theorem C1_ddl_unsupported_messages :
    ∀ (c : SOLRConnection) (M : ModelClass) (F : Field)
      (attrs : List (String × String)) (indexFields : List String),
      (c.createTable M).1 = Except.error (JsError.error (unsupportedMessage "createTable"))
      ∧ (c.dropTable M).1 = Except.error (JsError.error (unsupportedMessage "dropTable"))
      ∧ c.defineTable.1 = Except.error (JsError.error (unsupportedMessage "defineTable"))
      ∧ c.defineConstraints.1 = Except.error (JsError.error (unsupportedMessage "defineConstraints"))
      ∧ c.defineIndexes.1 = Except.error (JsError.error (unsupportedMessage "defineIndexes"))
      ∧ (c.addColumn F).1 = Except.error (JsError.error (unsupportedMessage "addColumn"))
      ∧ (c.dropColumn F).1 = Except.error (JsError.error (unsupportedMessage "dropColumn"))
      ∧ (c.addIndex M indexFields).1 = Except.error (JsError.error (unsupportedMessage "addIndex"))
      ∧ (c.alterTable M attrs).1 = Except.error (JsError.error (unsupportedMessage "renameTable"))
      ∧ (c.dropIndex M indexFields).1 = Except.error (JsError.error (unsupportedMessage "addIndex"))
      ∧ strContains (unsupportedMessage "renameTable") "SOLRConnection" = true
      ∧ strContains (unsupportedMessage "renameTable") "This operation is not supported" = true
      ∧ strContains (unsupportedMessage "renameTable") "alterTable" = false
      ∧ strContains (unsupportedMessage "addIndex") "dropIndex" = false := by
  intro c M F attrs indexFields
  refine ⟨rfl, rfl, rfl, rfl, rfl, rfl, rfl, rfl, rfl, rfl, ?_, ?_, ?_, ?_⟩ <;> decide

/-- Claim C2 (amended): every public data operation — insert, upsert, update,
updateAll, destroyModels, destroy, select (on first pull), aggregate, pluck,
exists, truncate, query — fails in every lifecycle state (stopped included)
with the generic Error saying the operation is not supported for this
connection type, issuing no transport call; it is not a NotStarted error. -/
theorem C2_data_ops_fail_unsupported :
    ∀ (c : SOLRConnection) (M : ModelClass) (q : QueryEngine)
      (models : List Record) (attributes : Record) (literal : AggregateLiteral)
      (fields : List String) (lucene : String) (op : DataOp),
      c.dataOpResult M q models attributes literal fields lucene op
        = (Except.error (JsError.error (unsupportedMessage op.opName)), []) := by
  intro c M q models attributes literal fields lucene op
  cases op <;> rfl

/-- Claim C2 counterexample: on a connection that was never started, insert
fails with the generic unsupported-operation error whose message mentions
neither "NotStarted" nor "start"; the identical error is raised after start(),
so the failure is not a NotStarted (operation-before-start) error. -/
theorem C2_counterexample_no_notstarted_error :
    SOLRConnection.new.isStarted = false
    ∧ (SOLRConnection.new.dataOpResult userModel sampleQuery [] emptyRecord
        countLiteral [] "" DataOp.insert).1
      = Except.error (JsError.error (unsupportedMessage "insert"))
    ∧ unsupportedMessage "insert"
      = "SOLRConnection::insert: This operation is not supported for this connection type."
    ∧ strContains (unsupportedMessage "insert") "NotStarted" = false
    ∧ strContains (unsupportedMessage "insert") "start" = false
    ∧ SOLRConnection.new.start.isStarted = true
    ∧ (SOLRConnection.new.start.dataOpResult userModel sampleQuery [] emptyRecord
        countLiteral [] "" DataOp.insert).1
      = Except.error (JsError.error (unsupportedMessage "insert")) := by
  refine ⟨rfl, rfl, ?_, ?_, ?_, rfl, rfl⟩ <;> decide

/-- Claim C3: the lifecycle is stopped → started → stopped: a new connection is
stopped, start() installs a transport handle and isStarted becomes true, and
stop() clears the handle so isStarted is false again. -/
theorem C3_connection_lifecycle :
    SOLRConnection.new.isStarted = false
    ∧ SOLRConnection.new.start.isStarted = true
    ∧ SOLRConnection.new.start.stop.isStarted = false
    ∧ (∀ c : SOLRConnection,
        c.start.isStarted = true ∧ c.start.httpClient = some c.nextHandleId)
    ∧ (∀ c : SOLRConnection,
        c.stop.isStarted = false ∧ c.stop.httpClient = none) :=
  ⟨rfl, rfl, rfl, fun _ => ⟨rfl, rfl⟩, fun _ => ⟨rfl, rfl⟩⟩

/-- Claim C4 (code bug evaluation): on a started connection, destroyModels with
null records throws the unsupported-operation error both without and with
`truncate: true` — it is neither a no-op nor a bucket clear, and it issues no
transport call — contrary to the claim and to the method's own doc comment. -/
theorem C4_destroyModels_null_throws :
    SOLRConnection.new.start.isStarted = true
    ∧ SOLRConnection.new.start.destroyModels userModel none { truncate := false }
      = (Except.error (JsError.error (unsupportedMessage "destroyModels")), [])
    ∧ SOLRConnection.new.start.destroyModels userModel none { truncate := true }
      = (Except.error (JsError.error (unsupportedMessage "destroyModels")), [])
    ∧ unsupportedMessage "destroyModels"
      = "SOLRConnection::destroyModels: This operation is not supported for this connection type." :=
  ⟨rfl, rfl, rfl, by decide⟩

/-- Claim C5 (code bug evaluation): inserting 1200 records with batchSize 500
on a started connection issues zero transport calls and returns no record
array — the call throws the unsupported-operation error immediately instead
of submitting ceil(1200/500) = 3 batches. -/
theorem C5_insert_batching_absent :
    (SOLRConnection.new.start.insert userModel (List.replicate 1200 emptyRecord)
        { batchSize := 500 }).1
      = Except.error (JsError.error (unsupportedMessage "insert"))
    ∧ (SOLRConnection.new.start.insert userModel (List.replicate 1200 emptyRecord)
        { batchSize := 500 }).2.length = 0
    ∧ (List.replicate 1200 emptyRecord).length = 1200 :=
  ⟨rfl, rfl, List.length_replicate _ _⟩

/-- Claim C6: transaction(callback, options) rejects with the
unsupported-operation error (the first branch the claim allows); it never
pretends atomicity, returns no callback result, and issues no transport call. -/
theorem C6_transaction_rejects_unsupported :
    ∀ (α : Type) (c : SOLRConnection) (callback : SOLRConnection → Except JsError α),
      (c.transaction callback).1
        = Except.error (JsError.error (unsupportedMessage "transaction"))
      ∧ (c.transaction callback).2 = []
      ∧ strContains (unsupportedMessage "transaction") "not supported" = true := by
  intro α c callback
  exact ⟨rfl, rfl, by decide⟩

/-- Claim C7: start() is not idempotent — a second start() without an
intervening stop() installs a second, distinct handle, the connection holds
the newer handle, and the first handle is abandoned (leaked). -/
theorem C7_start_not_idempotent :
    ∀ c : SOLRConnection,
      c.start.httpClient = some c.nextHandleId
      ∧ c.start.start.httpClient = some (c.nextHandleId + 1)
      ∧ c.nextHandleId ≠ c.nextHandleId + 1
      ∧ c.nextHandleId ∈ c.start.start.abandonedHandles := by
  intro c
  refine ⟨rfl, rfl, by omega, ?_⟩
  exact List.mem_cons_self _ _

/-- Helper: translation succeeds on every condition tree built only from
supported operators. -/
theorem translateCondition_ok_of_supported :
    ∀ c : CondNode, c.supportedOnly = true → ∃ s, translateCondition c = Except.ok s := by
  intro c
  induction c with
  | leaf f op vs => intro _; exact ⟨_, rfl⟩
  | andGroup l r ihl ihr =>
      intro h
      rw [CondNode.supportedOnly, Bool.and_eq_true] at h
      obtain ⟨s1, h1⟩ := ihl h.1
      obtain ⟨s2, h2⟩ := ihr h.2
      refine ⟨"(" ++ s1 ++ " AND " ++ s2 ++ ")", ?_⟩
      simp only [translateCondition]
      rw [h1, h2]
  | orGroup l r ihl ihr =>
      intro h
      rw [CondNode.supportedOnly, Bool.and_eq_true] at h
      obtain ⟨s1, h1⟩ := ihl h.1
      obtain ⟨s2, h2⟩ := ihr h.2
      refine ⟨"(" ++ s1 ++ " OR " ++ s2 ++ ")", ?_⟩
      simp only [translateCondition]
      rw [h1, h2]
  | unsupportedOp f n =>
      intro h
      rw [CondNode.supportedOnly] at h
      exact absurd h (by decide)

/-- Claim C8: for every AbstractQuery built only from supported operators,
translation (including translateCondition) succeeds, yields the identical
SearchQueryDocument when repeated, and leaves the generator state unchanged —
deterministic and side-effect free, with no hidden mutable state. -/
theorem C8_generator_deterministic :
    ∀ (g : SOLRQueryGenerator) (q : AbstractQuery),
      q.condition.supportedOnly = true →
      ∃ d : SearchQueryDocument, ∃ g1 : SOLRQueryGenerator,
        g.generate q = Except.ok (d, g1) ∧ g1 = g
        ∧ g1.generate q = Except.ok (d, g1) := by
  intro g q h
  obtain ⟨s, hs⟩ := translateCondition_ok_of_supported q.condition h
  refine ⟨{ filter := s,
            fieldList := translateProjection q.projection,
            sortSpec := q.order,
            rowBound := (translatePagination q.limit q.offset).1,
            startBound := (translatePagination q.limit q.offset).2 },
          g, ?_, rfl, ?_⟩ <;>
    · simp only [SOLRQueryGenerator.generate]
      rw [hs]

/-- Witness for C8 at a concrete generator and a concrete nested AND/OR query. -/
theorem C8_witness :
    sampleAbstractQuery.condition.supportedOnly = true
    ∧ ∃ d : SearchQueryDocument, ∃ g1 : SOLRQueryGenerator,
        sampleGenerator.generate sampleAbstractQuery = Except.ok (d, g1)
        ∧ g1 = sampleGenerator
        ∧ g1.generate sampleAbstractQuery = Except.ok (d, g1) :=
  ⟨by decide,
   C8_generator_deterministic sampleGenerator sampleAbstractQuery (by decide)⟩

/-- Claim C9: createTables/dropTables return undefined at once on a null or
undefined Models argument (no error, no per-model call), and on any non-empty
Models argument they raise a ReferenceError for the unbound `Utils` symbol
before any createTable/dropTable call is made. -/
theorem C9_createTables_dropTables_utils :
    ∀ c : SOLRConnection,
      c.createTables SOLRConnection.ModelsArg.nullArg = (Except.ok none, [])
      ∧ c.dropTables SOLRConnection.ModelsArg.nullArg = (Except.ok none, [])
      ∧ ∀ ms : List ModelClass, ms ≠ [] →
          c.createTables (SOLRConnection.ModelsArg.models ms)
            = (Except.error (JsError.referenceError "Utils is not defined"), [])
          ∧ c.dropTables (SOLRConnection.ModelsArg.models ms)
            = (Except.error (JsError.referenceError "Utils is not defined"), []) := by
  intro c
  exact ⟨rfl, rfl, fun ms _ => ⟨rfl, rfl⟩⟩

/-- Witness for C9 at a concrete one-model list. -/
theorem C9_witness :
    ([userModel] ≠ ([] : List ModelClass))
    ∧ (SOLRConnection.new.createTables (SOLRConnection.ModelsArg.models [userModel])
        = (Except.error (JsError.referenceError "Utils is not defined"), [])
      ∧ SOLRConnection.new.dropTables (SOLRConnection.ModelsArg.models [userModel])
        = (Except.error (JsError.referenceError "Utils is not defined"), [])) :=
  ⟨List.cons_ne_nil _ _,
   (C9_createTables_dropTables_utils SOLRConnection.new).2.2 [userModel]
     (List.cons_ne_nil _ _)⟩

/-- Claim C10: select is an async generator — invoking it returns the
suspended sequence without failing and without any transport call; the
unsupported-operation error is raised only on the first pull. -/
theorem C10_select_is_lazy :
    ∀ (c : SOLRConnection) (q : QueryEngine),
      ∃ g : AsyncGen Record,
        c.select q = (Except.ok g, [])
        ∧ g.pull = Except.error (JsError.error (unsupportedMessage "select")) := by
  intro c q
  exact ⟨AsyncGen.mk (Except.error (JsError.error (unsupportedMessage "select"))), rfl, rfl⟩

end MythixSolr
